import Mathlib

/-!
Verification of the workflow repository's attachment analysis core.

The definitions below are a shallow embedding of the Python sources:
  src/attachment_analyzer.py    (entity match status, consistency check, conclusion)
  src/complaint_parser.py       (section splitting, attachment reference extraction)
  src/attachment_name_checker.py (filename parsing and reconciliation)
Python strings are modelled as Lean String (a structure over List Char);
Python lists of strings (built from sets, hence deduplicated) are List String;
Python dicts with fixed key sets are Lean structures, a key that is present
only on some code paths becoming an Option field.
-/

namespace Workflow

/-! ### Character and string helpers shared by the embeddings -/

/-- Whitespace for the embedding of Python str.strip and of the regex class
backslash-s: ASCII whitespace plus the ideographic and no-break spaces. -/
def isPySpace (c : Char) : Bool :=
  c == ' ' || c == '\t' || c == '\n' || c == '\r' || c == '\x0b' || c == '\x0c' ||
  c == '　' || c == ' '

/-- Remove the characters satisfying p from both ends (Python str.strip(chars)). -/
def stripWhile (p : Char → Bool) (s : List Char) : List Char :=
  ((s.dropWhile p).reverse.dropWhile p).reverse

/-- Python str.strip() with no argument. -/
def pyStrip (s : List Char) : List Char :=
  stripWhile isPySpace s

/-- Python s.replace of a newline by a space. -/
def replaceNewlines (s : List Char) : List Char :=
  s.map (fun c => if c == '\n' then ' ' else c)

/-- Python slice s[a:b] for already clamped 0 <= a <= b. -/
def sliceList (s : List Char) (a b : Nat) : List Char :=
  (s.drop a).take (b - a)

/-- Value of a nonempty decimal digit string (Python int on a regex capture). -/
def digitsToNat (l : List Char) : Nat :=
  l.foldl (fun n c => 10 * n + (c.toNat - 48)) 0

/-- Python int(s) for the digit-only strings captured by the patterns. -/
def pyNat (s : String) : Nat :=
  digitsToNat s.data

/-- Python substring containment needle in hay (empty needle is contained). -/
def pyIn (needle : List Char) : List Char → Bool
  | [] => needle.isPrefixOf []
  | c :: t => needle.isPrefixOf (c :: t) || pyIn needle t

/-! ### attachment_analyzer.py: match status (method of AttachmentAnalyzer) -/

/-- Result dict of the analyzer method computing a match status: keys status and
message always present, matched and unmatched only on some branches. -/
structure MatchRes where
  status : String
  message : String
  matched : Option (List String)
  unmatched : Option (List String)
deriving Repr, DecidableEq

/-- Embedding of the analyzer method comparing one attachment entity list
against the document reference list (attachment_analyzer.py lines 301-330). -/
def matchStatus (att_data doc_data : List String) : MatchRes :=
  if att_data = [] then
    { status := "empty", message := "附件中未找到此类数据",
      matched := none, unmatched := none }
  else
    let matched := att_data.filter (fun item => doc_data.contains item)
    let unmatched := att_data.filter (fun item => !doc_data.contains item)
    if matched.length = att_data.length then
      { status := "full_match", message := "完全匹配",
        matched := some matched, unmatched := none }
    else if 0 < matched.length then
      { status := "partial_match", message := "部分匹配",
        matched := some matched, unmatched := some unmatched }
    else
      { status := "no_match", message := "不匹配",
        matched := none, unmatched := some unmatched }

/-! ### attachment_analyzer.py: consistency check and conclusion -/

/-- Attachment info dict produced from one attachment transcript (the five
entity lists come from set() so they are deduplicated). -/
structure AttInfo where
  phone_numbers : List String
  business_numbers : List String
  amounts : List String
  dates : List String
  times : List String
  is_operation_guide : Bool
deriving Repr, DecidableEq

/-- Aggregated reference data from narrative sections two and three. -/
structure DocReference where
  phone_numbers : List String
  business_numbers : List String
  amounts : List String
  dates : List String
  times : List String
deriving Repr, DecidableEq

/-- Issue dict appended by the consistency check. -/
structure Issue where
  type : String
  severity : String
  data : String
  message : String
deriving Repr, DecidableEq

/-- Consistency check result dict. The key total_issues exists only on the
normal path and the keys skipped and skip_reason only on the skipped path,
hence the Option fields. -/
structure DataCheck where
  total_issues : Option Nat
  critical_issues : Nat
  warnings : Nat
  issues : List Issue
  is_consistent : Bool
  skipped : Bool
  skip_reason : Option String
deriving Repr, DecidableEq

/-- Embedding of the simplified consistency check (attachment_analyzer.py lines
332-368): the only issue ever produced is the singleton phone mismatch; the
amount check was removed by the source (comment at lines 359-360). -/
def checkDataConsistency (att_info : AttInfo) (doc_reference : DocReference) : DataCheck :=
  let doc_phones := doc_reference.phone_numbers
  let att_phones := att_info.phone_numbers
  let issues : List Issue :=
    if !doc_phones.isEmpty && !att_phones.isEmpty then
      let has_match := att_phones.any (fun p => doc_phones.contains p)
      if !has_match && att_phones.length == 1 && doc_phones.length == 1 then
        [{ type := "phone_mismatch", severity := "warning",
           data := att_phones.headD (""),
           message := "附件号码 " ++ att_phones.headD ("") ++ " 与文档号码 " ++
             doc_phones.headD ("") ++ " 不一致" }]
      else []
    else []
  { total_issues := some issues.length
  , critical_issues := (issues.filter (fun i => i.severity == "critical")).length
  , warnings := (issues.filter (fun i => i.severity == "warning")).length
  , issues := issues
  , is_consistent := (issues.filter (fun i => i.severity == "critical")).length == 0
  , skipped := false
  , skip_reason := none }

/-- The data check built inline for an operation guide attachment
(attachment_analyzer.py lines 108-115). -/
def skippedDataCheck : DataCheck :=
  { total_issues := none
  , critical_issues := 0
  , warnings := 0
  , issues := []
  , is_consistent := true
  , skipped := true
  , skip_reason := some ("操作指引类附件，无需核验业务数据") }

/-- Dispatch in the per-attachment analysis (attachment_analyzer.py lines
107-118): operation guides skip the consistency check. -/
def dataCheckFor (att_info : AttInfo) (doc_reference : DocReference) : DataCheck :=
  if att_info.is_operation_guide then skippedDataCheck
  else checkDataConsistency att_info doc_reference

/-- One reference entry as stored under section2_refs or section3_refs. -/
structure RefEntry where
  reference : String
  description : String
  context : String
deriving Repr, DecidableEq

/-- References found for one attachment in the two narrative sections. -/
structure SectionRefs where
  section2 : List RefEntry
  section3 : List RefEntry
deriving Repr, DecidableEq

/-- Conclusion dict of the per-attachment checklist. -/
structure Conclusion where
  status : String
  message : String
  is_referenced : Bool
  is_consistent : Bool
  has_key_content : Bool
  is_operation_guide : Bool
deriving Repr, DecidableEq

/-- Embedding of the conclusion generator (attachment_analyzer.py lines
387-437). -/
def generateConclusion (att_info : AttInfo) (references : SectionRefs)
    (data_check : DataCheck) : Conclusion :=
  let is_referenced : Bool := decide (0 < references.section2.length + references.section3.length)
  let is_consistent := data_check.is_consistent
  let is_operation_guide := att_info.is_operation_guide
  let has_key_content : Bool :=
    !att_info.phone_numbers.isEmpty || !att_info.business_numbers.isEmpty ||
    !att_info.amounts.isEmpty || !att_info.dates.isEmpty
  let sm : String × String :=
    if is_operation_guide then
      ("pass", "✅ 操作指引，无需核验")
    else if !is_consistent then
      ("fail", "❌ 发现 " ++ toString data_check.critical_issues ++ " 个数据不一致")
    else if 0 < data_check.warnings then
      ("warning", "⚠️ 存在 " ++ toString data_check.warnings ++ " 个警告")
    else if has_key_content then
      ("pass", "✅ 数据一致")
    else
      ("pass", "✅ 通过")
  { status := sm.1
  , message := sm.2
  , is_referenced := is_referenced
  , is_consistent := is_consistent
  , has_key_content := has_key_content
  , is_operation_guide := is_operation_guide }

/-- The one issue the consistency check can produce, for attachment phone a
and document phone d. -/
def phoneIssue (a d : String) : Issue :=
  { type := "phone_mismatch", severity := "warning", data := a,
    message := "附件号码 " ++ a ++ " 与文档号码 " ++ d ++ " 不一致" }

/-- The issues of the consistency check: empty unless both phone lists are
singletons with different elements, in which case exactly the phone issue. -/
theorem checkDataConsistency_issues_spec (att_info : AttInfo) (doc_reference : DocReference) :
    ((checkDataConsistency att_info doc_reference).issues = [] ∧
        ¬ ∃ a d, att_info.phone_numbers = [a] ∧ doc_reference.phone_numbers = [d] ∧ a ≠ d) ∨
      ∃ a d, att_info.phone_numbers = [a] ∧ doc_reference.phone_numbers = [d] ∧ a ≠ d ∧
        (checkDataConsistency att_info doc_reference).issues = [phoneIssue a d] := by
  unfold checkDataConsistency
  rcases hA : att_info.phone_numbers with _ | ⟨a, as⟩
  · left
    refine ⟨by simp, ?_⟩
    rintro ⟨x, y, hx, -, -⟩
    exact List.noConfusion hx
  · rcases as with _ | ⟨a2, as2⟩
    · rcases hD : doc_reference.phone_numbers with _ | ⟨d, ds⟩
      · left
        refine ⟨by simp, ?_⟩
        rintro ⟨x, y, -, hy, -⟩
        exact List.noConfusion hy
      · rcases ds with _ | ⟨d2, ds2⟩
        · by_cases had : a = d
          · left
            refine ⟨by simp [had], ?_⟩
            rintro ⟨x, y, hx, hy, hxy⟩
            simp only [List.cons.injEq, and_true] at hx hy
            subst hx
            subst hy
            exact hxy had
          · right
            exact ⟨a, d, rfl, rfl, had, by simp [had, phoneIssue]⟩
        · left
          refine ⟨by simp, ?_⟩
          rintro ⟨x, y, -, hy, -⟩
          simp at hy
    · left
      refine ⟨by simp, ?_⟩
      rintro ⟨x, y, hx, -, -⟩
      simp at hx

/-- The derived count fields of the consistency check are the filter lengths
over its issue list, and consistency means no critical issue. -/
theorem checkDataConsistency_fields (att_info : AttInfo) (doc_reference : DocReference) :
    (checkDataConsistency att_info doc_reference).critical_issues =
      ((checkDataConsistency att_info doc_reference).issues.filter
        (fun i => i.severity == "critical")).length
    ∧ (checkDataConsistency att_info doc_reference).warnings =
      ((checkDataConsistency att_info doc_reference).issues.filter
        (fun i => i.severity == "warning")).length
    ∧ (checkDataConsistency att_info doc_reference).is_consistent =
      (((checkDataConsistency att_info doc_reference).issues.filter
        (fun i => i.severity == "critical")).length == 0) := by
  unfold checkDataConsistency
  exact ⟨rfl, rfl, rfl⟩

/-- The status of the conclusion, with the two trailing branches merged. -/
theorem generateConclusion_status (att_info : AttInfo) (references : SectionRefs)
    (data_check : DataCheck) :
    (generateConclusion att_info references data_check).status =
      if att_info.is_operation_guide then "pass"
      else if !data_check.is_consistent then "fail"
      else if 0 < data_check.warnings then "warning"
      else "pass" := by
  unfold generateConclusion
  dsimp only
  split_ifs <;> rfl

/-- Claim C2: for every pair of entity lists, the match status is exactly one
of empty, full_match, partial_match and no_match; it is empty iff the
attachment list is empty, else full_match iff every attachment value is a
member of the narrative list, else partial_match iff at least one is, else
no_match. -/
theorem matchStatus_characterization (att doc : List String) :
    ((matchStatus att doc).status = "empty" ∨ (matchStatus att doc).status = "full_match" ∨
      (matchStatus att doc).status = "partial_match" ∨ (matchStatus att doc).status = "no_match")
    ∧ ((matchStatus att doc).status = "empty" ↔ att = [])
    ∧ ((matchStatus att doc).status = "full_match" ↔ att ≠ [] ∧ ∀ x ∈ att, x ∈ doc)
    ∧ ((matchStatus att doc).status = "partial_match" ↔
        (∃ x ∈ att, x ∈ doc) ∧ ¬ ∀ x ∈ att, x ∈ doc)
    ∧ ((matchStatus att doc).status = "no_match" ↔ att ≠ [] ∧ ∀ x ∈ att, x ∉ doc) := by
  unfold matchStatus
  by_cases h : att = []
  · subst h
    simp
  · rw [if_neg h]
    by_cases h2 : (att.filter (fun item => doc.contains item)).length = att.length
    · rw [if_pos h2]
      rw [List.filter_length_eq_length] at h2
      have hmem : ∀ x ∈ att, x ∈ doc := by
        intro x hx
        have := h2 x hx
        simpa using this
      refine ⟨Or.inr (Or.inl rfl), iff_of_false (by simp) h,
        iff_of_true rfl ⟨h, hmem⟩, iff_of_false (by simp) (fun hc => hc.2 hmem), ?_⟩
      refine iff_of_false (by simp) ?_
      rintro ⟨hne, hnone⟩
      obtain ⟨x, hx⟩ := List.exists_mem_of_ne_nil att hne
      exact hnone x hx (hmem x hx)
    · rw [if_neg h2]
      by_cases h3 : 0 < (att.filter (fun item => doc.contains item)).length
      · rw [if_pos h3]
        have hnotall : ¬ ∀ x ∈ att, x ∈ doc := by
          intro hall
          apply h2
          rw [List.filter_length_eq_length]
          intro x hx
          simpa using hall x hx
        have hex : ∃ x ∈ att, x ∈ doc := by
          rw [List.length_pos] at h3
          obtain ⟨x, hx⟩ := List.exists_mem_of_ne_nil _ h3
          rw [List.mem_filter] at hx
          exact ⟨x, hx.1, by simpa using hx.2⟩
        refine ⟨Or.inr (Or.inr (Or.inl rfl)), iff_of_false (by simp) h,
          iff_of_false (by simp) (fun hc => hnotall hc.2),
          iff_of_true rfl ⟨hex, hnotall⟩, ?_⟩
        refine iff_of_false (by simp) ?_
        rintro ⟨-, hnone⟩
        obtain ⟨x, hx, hxd⟩ := hex
        exact hnone x hx hxd
      · rw [if_neg h3]
        have h0 : (att.filter (fun item => doc.contains item)).length = 0 :=
          Nat.eq_zero_of_not_pos h3
        rw [List.length_eq_zero, List.filter_eq_nil_iff] at h0
        have hnone : ∀ x ∈ att, x ∉ doc := by
          intro x hx hxd
          exact h0 x hx (by simpa using hxd)
        have hnotall : ¬ ∀ x ∈ att, x ∈ doc := by
          intro hall
          obtain ⟨x, hx⟩ := List.exists_mem_of_ne_nil att h
          exact hnone x hx (hall x hx)
        refine ⟨Or.inr (Or.inr (Or.inr rfl)), iff_of_false (by simp) h,
          iff_of_false (by simp) (fun hc => hnotall hc.2), ?_,
          iff_of_true rfl ⟨h, hnone⟩⟩
        refine iff_of_false (by simp) ?_
        rintro ⟨⟨x, hx, hxd⟩, -⟩
        exact hnone x hx hxd

/-- Claim C3: a phone mismatch issue (severity warning) is emitted iff the
attachment phone list and the aggregated narrative phone list are both
singletons with different elements; with two or more phones on either side no
issue at all is emitted, even for disjoint lists. -/
theorem phone_mismatch_singleton_iff (att_info : AttInfo) (doc_reference : DocReference) :
    (((checkDataConsistency att_info doc_reference).issues.filter
        (fun i => i.type == "phone_mismatch")).length = 1 ↔
      ∃ a d, att_info.phone_numbers = [a] ∧ doc_reference.phone_numbers = [d] ∧ a ≠ d)
    ∧ ((checkDataConsistency att_info doc_reference).issues = [] ↔
      ¬ ∃ a d, att_info.phone_numbers = [a] ∧ doc_reference.phone_numbers = [d] ∧ a ≠ d)
    ∧ (∀ i ∈ (checkDataConsistency att_info doc_reference).issues,
        i.type = "phone_mismatch" ∧ i.severity = "warning")
    ∧ ((2 ≤ att_info.phone_numbers.length ∨ 2 ≤ doc_reference.phone_numbers.length) →
        (checkDataConsistency att_info doc_reference).issues = []) := by
  rcases checkDataConsistency_issues_spec att_info doc_reference with
    ⟨hnil, hno⟩ | ⟨a, d, hA, hD, hne, hiss⟩
  · refine ⟨iff_of_false (by simp [hnil]) hno, iff_of_true hnil hno, by simp [hnil],
      fun _ => hnil⟩
  · have hex : ∃ a d, att_info.phone_numbers = [a] ∧ doc_reference.phone_numbers = [d] ∧ a ≠ d :=
      ⟨a, d, hA, hD, hne⟩
    refine ⟨iff_of_true (by rw [hiss]; rfl) hex,
      iff_of_false (fun hh => List.noConfusion (hiss.symm.trans hh)) (not_not_intro hex),
      ?_, ?_⟩
    · intro i hi
      rw [hiss, List.mem_singleton] at hi
      subst hi
      exact ⟨rfl, rfl⟩
    · intro hlen
      rcases hlen with hlen | hlen
      · rw [hA] at hlen
        simp at hlen
      · rw [hD] at hlen
        simp at hlen

/-- Claim C4: for an attachment classified as operation guide the data check is
the skipped record: no issues, the explicit skipped marker set, and the
conclusion status is pass, regardless of entity content and references. -/
theorem operation_guide_skip (att_info : AttInfo) (doc_reference : DocReference)
    (references : SectionRefs) (h : att_info.is_operation_guide = true) :
    (dataCheckFor att_info doc_reference).issues = []
    ∧ (dataCheckFor att_info doc_reference).skipped = true
    ∧ (dataCheckFor att_info doc_reference).critical_issues = 0
    ∧ (dataCheckFor att_info doc_reference).warnings = 0
    ∧ (generateConclusion att_info references (dataCheckFor att_info doc_reference)).status =
        "pass" := by
  unfold dataCheckFor
  rw [generateConclusion_status]
  simp [h, skippedDataCheck]

/-- Operation guide attachment with business data and a nonempty narrative
reference, used to instantiate the operation guide claim. -/
def guideAttInfoEx : AttInfo :=
  { phone_numbers := ["13911111111"], business_numbers := [], amounts := ["999元"],
    dates := ["2024年1月2日"], times := [], is_operation_guide := true }

/-- Narrative reference used in the concrete scenarios. -/
def docRefPhonesEx : DocReference :=
  { phone_numbers := ["13900000000"], business_numbers := [], amounts := [],
    dates := [], times := [] }

/-- Witness: the operation guide claim at a concrete guide attachment whose
entity content disagrees with the narrative reference. -/
theorem operation_guide_skip_witness :
    guideAttInfoEx.is_operation_guide = true
    ∧ ((dataCheckFor guideAttInfoEx docRefPhonesEx).issues = []
      ∧ (dataCheckFor guideAttInfoEx docRefPhonesEx).skipped = true
      ∧ (dataCheckFor guideAttInfoEx docRefPhonesEx).critical_issues = 0
      ∧ (dataCheckFor guideAttInfoEx docRefPhonesEx).warnings = 0
      ∧ (generateConclusion guideAttInfoEx { section2 := [], section3 := [] }
          (dataCheckFor guideAttInfoEx docRefPhonesEx)).status = "pass") :=
  ⟨rfl, operation_guide_skip guideAttInfoEx docRefPhonesEx { section2 := [], section3 := [] } rfl⟩

/-- Claim C5: the conclusion status follows the fixed priority order (operation
guide first, then any critical issue, then any warning issue, then pass), and
the referenced flag is recorded but never changes the status. -/
theorem conclusion_priority_order (att_info : AttInfo) (doc_reference : DocReference)
    (refs refs2 : SectionRefs) :
    ((generateConclusion att_info refs (dataCheckFor att_info doc_reference)).status =
      if att_info.is_operation_guide then "pass"
      else if ((dataCheckFor att_info doc_reference).issues.filter
          (fun i => i.severity == "critical")).length ≠ 0 then "fail"
      else if ((dataCheckFor att_info doc_reference).issues.filter
          (fun i => i.severity == "warning")).length ≠ 0 then "warning"
      else "pass")
    ∧ (generateConclusion att_info refs (dataCheckFor att_info doc_reference)).status =
      (generateConclusion att_info refs2 (dataCheckFor att_info doc_reference)).status
    ∧ (generateConclusion att_info refs (dataCheckFor att_info doc_reference)).is_referenced =
      decide (0 < refs.section2.length + refs.section3.length) := by
  have hs := generateConclusion_status att_info refs (dataCheckFor att_info doc_reference)
  have hs2 := generateConclusion_status att_info refs2 (dataCheckFor att_info doc_reference)
  refine ⟨?_, by rw [hs, hs2], rfl⟩
  rw [hs]
  by_cases hg : att_info.is_operation_guide = true
  · rw [if_pos hg, if_pos hg]
  · rw [if_neg hg, if_neg hg]
    have hdc : dataCheckFor att_info doc_reference = checkDataConsistency att_info doc_reference := by
      unfold dataCheckFor
      rw [if_neg hg]
    obtain ⟨hc, hw, hic⟩ := checkDataConsistency_fields att_info doc_reference
    rw [hdc, hic, hw]
    by_cases hcrit :
        ((checkDataConsistency att_info doc_reference).issues.filter
          (fun i => i.severity == "critical")).length = 0
    · rw [hcrit]
      simp only [Nat.pos_iff_ne_zero]
      simp
    · simp [hcrit]

/-- Claim C10: every issue the consistency check emits has severity warning,
its consistency flag is always true, the fail branch of the conclusion is
unreachable and the conclusion status is always pass or warning. -/
theorem issues_always_warning_invariant (att_info : AttInfo) (doc_reference : DocReference)
    (refs : SectionRefs) :
    (∀ i ∈ (checkDataConsistency att_info doc_reference).issues, i.severity = "warning")
    ∧ (checkDataConsistency att_info doc_reference).critical_issues = 0
    ∧ (checkDataConsistency att_info doc_reference).is_consistent = true
    ∧ (dataCheckFor att_info doc_reference).is_consistent = true
    ∧ (generateConclusion att_info refs (dataCheckFor att_info doc_reference)).status ≠ "fail"
    ∧ ((generateConclusion att_info refs (dataCheckFor att_info doc_reference)).status = "pass" ∨
        (generateConclusion att_info refs (dataCheckFor att_info doc_reference)).status =
          "warning") := by
  obtain ⟨hc, hw, hic⟩ := checkDataConsistency_fields att_info doc_reference
  have hwarnonly : ∀ i ∈ (checkDataConsistency att_info doc_reference).issues,
      i.severity = "warning" := by
    rcases checkDataConsistency_issues_spec att_info doc_reference with
      ⟨hnil, -⟩ | ⟨a, d, -, -, -, hiss⟩
    · rw [hnil]
      intro i hi
      simp at hi
    · rw [hiss]
      intro i hi
      rw [List.mem_singleton] at hi
      subst hi
      rfl
  have hcrit0 : ((checkDataConsistency att_info doc_reference).issues.filter
      (fun i => i.severity == "critical")).length = 0 := by
    rw [List.length_eq_zero, List.filter_eq_nil_iff]
    intro i hi
    rw [hwarnonly i hi]
    simp
  have hcons : (checkDataConsistency att_info doc_reference).is_consistent = true := by
    rw [hic, hcrit0]
    rfl
  have hconsFor : (dataCheckFor att_info doc_reference).is_consistent = true := by
    unfold dataCheckFor
    by_cases hg : att_info.is_operation_guide
    · simp [hg, skippedDataCheck]
    · simp [hg, hcons]
  have hstat := generateConclusion_status att_info refs (dataCheckFor att_info doc_reference)
  have hnotfail :
      (generateConclusion att_info refs (dataCheckFor att_info doc_reference)).status ≠ "fail" := by
    rw [hstat, hconsFor]
    split_ifs <;> simp_all
  have hpw :
      (generateConclusion att_info refs (dataCheckFor att_info doc_reference)).status = "pass" ∨
      (generateConclusion att_info refs (dataCheckFor att_info doc_reference)).status =
        "warning" := by
    rw [hstat, hconsFor]
    split_ifs <;> simp_all
  exact ⟨hwarnonly, by rw [hc, hcrit0], hcons, hconsFor, hnotfail, hpw⟩

/-- Attachment whose amounts are 100 and 200 yuan, against a narrative that
only mentions 100 yuan, not an operation guide. -/
def attInfoAmountsEx : AttInfo :=
  { phone_numbers := [], business_numbers := [], amounts := ["100元", "200元"],
    dates := [], times := [], is_operation_guide := false }

/-- Narrative reference whose only amount is 100 yuan. -/
def docRefAmountsEx : DocReference :=
  { phone_numbers := [], business_numbers := [], amounts := ["100元"],
    dates := [], times := [] }

/-- Counterexample to claim C1: on the amounts scenario the match status is
partial_match as claimed, but the consistency check emits no issue at all, so
no warning amount mismatch issue for the out-of-narrative value exists. -/
theorem amount_mismatch_never_emitted_cex :
    (matchStatus (["100元", "200元"]) (["100元"])).status = "partial_match"
    ∧ (checkDataConsistency attInfoAmountsEx docRefAmountsEx).issues = []
    ∧ ((checkDataConsistency attInfoAmountsEx docRefAmountsEx).issues.filter
        (fun i => i.type == "amount_mismatch")).length = 0 := by
  refine ⟨by decide, by decide, by decide⟩

/-- Claim C1 as amended: the match status on the amounts scenario is
partial_match, but the consistency check never emits amount or date issues:
every issue it can emit is the phone mismatch issue with severity warning, and
on the amounts scenario its issue list is empty. -/
theorem consistency_issues_only_phone (att_info : AttInfo) (doc_reference : DocReference) :
    (∀ i ∈ (checkDataConsistency att_info doc_reference).issues,
        i.type = "phone_mismatch" ∧ i.severity = "warning")
    ∧ (matchStatus (["100元", "200元"]) (["100元"])).status = "partial_match"
    ∧ (checkDataConsistency attInfoAmountsEx docRefAmountsEx).issues = [] := by
  refine ⟨?_, by decide, by decide⟩
  rcases checkDataConsistency_issues_spec att_info doc_reference with
    ⟨hnil, -⟩ | ⟨a, d, -, -, -, hiss⟩
  · rw [hnil]
    intro i hi
    simp at hi
  · rw [hiss]
    intro i hi
    rw [List.mem_singleton] at hi
    subst hi
    exact ⟨rfl, rfl⟩

/-! ### complaint_parser.py: attachment reference extraction -/

/-- Reference dict built by the extractor: number, citation text, context and
description. -/
structure AttRef where
  number : String
  reference : String
  context : String
  description : String
deriving Repr, DecidableEq

/-- Context window of w characters on both sides of the match span a..b, with
newlines replaced by spaces and the ends stripped. -/
def contextWindow (s : List Char) (a b w : Nat) : String :=
  String.mk (pyStrip (replaceNewlines (sliceList s (a - w) (min s.length (b + w)))))

/-- Open parenthesis class of the citation patterns. -/
def openParen (c : Char) : Bool := c == '（' || c == '('

/-- Close parenthesis class of the citation patterns. -/
def closeParen (c : Char) : Bool := c == '）' || c == ')'

/-- Dash class between number and description. -/
def dashChar (c : Char) : Bool := c == '-' || c == '—'

/-- Citation form one at position i: the literal 见附件 followed by one or
more digits (complaint_parser.py line 149), with the 50 character context
window of lines 153-155. Returns the built reference and the end position. -/
def p1MatchAt (s : List Char) (i : Nat) : Option (AttRef × Nat) :=
  let t := s.drop i
  if ("见附件").data.isPrefixOf t then
    let digits := (t.drop 3).takeWhile Char.isDigit
    if digits.isEmpty then none
    else
      let j := i + 3 + digits.length
      some ({ number := String.mk digits
            , reference := String.mk (("见附件").data ++ digits)
            , context := contextWindow s i j 50
            , description := "" }, j)
  else none

/-- Citation form two at position i: parenthesized 附件, digits, a dash and a
nonempty description running to the closing parenthesis (complaint_parser.py
line 165), with the 30 character context window. -/
def p2MatchAt (s : List Char) (i : Nat) : Option (AttRef × Nat) :=
  match s.drop i with
  | [] => none
  | c :: rest =>
    if openParen c && ("附件").data.isPrefixOf rest then
      let digits := (rest.drop 2).takeWhile Char.isDigit
      if digits.isEmpty then none
      else
        match rest.drop (2 + digits.length) with
        | [] => none
        | d :: rest2 =>
          if dashChar d then
            let desc := rest2.takeWhile (fun x => !closeParen x)
            if desc.isEmpty then none
            else
              match rest2.drop desc.length with
              | [] => none
              | _ :: _ =>
                let j := i + 1 + 2 + digits.length + 1 + desc.length + 1
                some ({ number := String.mk digits
                      , reference := String.mk (("附件").data ++ digits)
                      , context := contextWindow s i j 30
                      , description := String.mk (pyStrip desc) }, j)
          else none
    else none

/-- Stop characters of the free standing description of citation form three. -/
def p3Stop (c : Char) : Bool :=
  c == '\n' || c == ',' || c == '，' || c == '。' || c == '；' || c == ';' || closeParen c

/-- Citation form three at position i: 附件, digits, a dash and a description
of 5 to 50 characters, not preceded by an open parenthesis
(complaint_parser.py line 189). The context is position determined, so it is
computed here although the source only computes it when appending. -/
def p3MatchAt (s : List Char) (i : Nat) : Option (AttRef × Nat) :=
  if i != 0 && openParen (s.getD (i - 1) ' ') then none
  else
    let t := s.drop i
    if ("附件").data.isPrefixOf t then
      let digits := (t.drop 2).takeWhile Char.isDigit
      if digits.isEmpty then none
      else
        match t.drop (2 + digits.length) with
        | [] => none
        | d :: rest2 =>
          if dashChar d then
            let run := rest2.takeWhile (fun x => !p3Stop x)
            if run.length < 5 then none
            else
              let desc := run.take 50
              let j := i + 2 + digits.length + 1 + desc.length
              some ({ number := String.mk digits
                    , reference := String.mk (("附件").data ++ digits)
                    , context := contextWindow s i j 30
                    , description := String.mk (pyStrip desc) }, j)
          else none
    else none

/-- Python re.finditer: non-overlapping left-to-right scan. The fuel bounds
the number of scan steps; every step advances the position by at least one,
so fuel length+1 covers the whole text. -/
def reScan (matchAt : Nat → Option (AttRef × Nat)) : Nat → Nat → List AttRef
  | 0, _ => []
  | fuel + 1, i =>
    match matchAt i with
    | some (r, j) => r :: reScan matchAt fuel (max j (i + 1))
    | none => reScan matchAt fuel (i + 1)

/-- All matches of citation form one, in text order. -/
def p1Matches (s : List Char) : List AttRef :=
  reScan (p1MatchAt s) (s.length + 1) 0

/-- All matches of citation form two, in text order. -/
def p2Matches (s : List Char) : List AttRef :=
  reScan (p2MatchAt s) (s.length + 1) 0

/-- All matches of citation form three, in text order. -/
def p3Matches (s : List Char) : List AttRef :=
  reScan (p3MatchAt s) (s.length + 1) 0

/-- Update the first reference carrying the given number: set its description
when the stored one is empty (complaint_parser.py lines 176-179, 195-198). -/
def fillDescFirst (num desc : String) : List AttRef → List AttRef
  | [] => []
  | r :: rest =>
    if r.number == num then
      (if r.description == "" then { r with description := desc } else r) :: rest
    else r :: fillDescFirst num desc rest

/-- Whether some reference in the list carries the given number. -/
def hasNumber (refs : List AttRef) (num : String) : Bool :=
  refs.any (fun r => r.number == num)

/-- Add one candidate of citation form two or three: update the existing
reference with the same number, else append the candidate. -/
def addCandidate (refs : List AttRef) (r : AttRef) : List AttRef :=
  if hasNumber refs r.number then fillDescFirst r.number r.description refs
  else refs ++ [r]

/-- The candidate list before sorting: form one matches, then the form two
and form three candidates merged in. -/
def extractCandidates (s : List Char) : List AttRef :=
  let refs1 := p1Matches s
  let refs2 := (p2Matches s).foldl addCandidate refs1
  (p3Matches s).foldl addCandidate refs2

/-- Order of the sort key int(number) of complaint_parser.py line 212. -/
def refLe (a b : AttRef) : Prop := pyNat a.number ≤ pyNat b.number

instance : DecidableRel refLe := fun _ _ => Nat.decLe _ _

instance : IsTotal AttRef refLe := ⟨fun _ _ => Nat.le_total _ _⟩

instance : IsTrans AttRef refLe := ⟨fun _ _ _ => Nat.le_trans⟩

/-- Python list.sort with key int(number) is a stable sort by the numeric
number; insertionSort with this total preorder is stable, so it computes the
same list. -/
def sortRefs (refs : List AttRef) : List AttRef :=
  List.insertionSort refLe refs

/-- Dedup dict second phase: a later duplicate bumps the stored description
only when strictly longer (complaint_parser.py lines 215-221). -/
def bumpDesc (num desc : String) : List AttRef → List AttRef
  | [] => []
  | r :: rest =>
    if r.number == num then
      (if r.description.length < desc.length then { r with description := desc } else r) :: rest
    else r :: bumpDesc num desc rest

/-- Fold of the dedup dict over the sorted references: keep the first entry
per number, in insertion order. -/
def dedupRefs : List AttRef → List AttRef → List AttRef
  | acc, [] => acc
  | acc, r :: rest =>
    if hasNumber acc r.number then dedupRefs (bumpDesc r.number r.description acc) rest
    else dedupRefs (acc ++ [r]) rest

/-- Embedding of the reference extractor (complaint_parser.py lines 127-223). -/
def extractAttachmentRefs (section_content : String) : List AttRef :=
  if section_content == "" then []
  else dedupRefs [] (sortRefs (extractCandidates section_content.data))

/-! ### attachment_analyzer.py: reference lookup for one attachment -/

/-- Parsed section dict part used by the lookup. -/
structure SectionData where
  attachment_refs : List AttRef
deriving Repr, DecidableEq

/-- References found for one attachment index in both narrative sections. -/
structure FoundRefs where
  section2 : List RefEntry
  section3 : List RefEntry
deriving Repr, DecidableEq

/-- Projection of a stored reference into the per-attachment entry, context
capped at 100 characters (attachment_analyzer.py lines 283-287). -/
def projectRef (r : AttRef) : RefEntry :=
  { reference := r.reference, description := r.description,
    context := String.mk (r.context.data.take 100) }

/-- Embedding of the per-attachment reference lookup (attachment_analyzer.py
lines 261-299): exact string equality on the captured number. -/
def findAttachmentReferences (index : Nat) (section2 section3 : SectionData) : FoundRefs :=
  let index_str := toString index
  { section2 := (section2.attachment_refs.filter (fun r => r.number == index_str)).map projectRef
  , section3 := (section3.attachment_refs.filter (fun r => r.number == index_str)).map projectRef }

/-- Bumping a description never changes the number column. -/
theorem bumpDesc_map_number (num desc : String) (l : List AttRef) :
    (bumpDesc num desc l).map AttRef.number = l.map AttRef.number := by
  induction l with
  | nil => rfl
  | cons r rest ih =>
    simp only [bumpDesc, List.map_cons]
    by_cases h : (r.number == num) = true
    · rw [if_pos h]
      by_cases h2 : r.description.length < desc.length
      · rw [if_pos h2]
        rfl
      · rw [if_neg h2]
        rfl
    · rw [if_neg h]
      rw [List.map_cons, ih]

/-- A number is absent from the list iff hasNumber is false. -/
theorem hasNumber_eq_false_iff (refs : List AttRef) (num : String) :
    hasNumber refs num = false ↔ num ∉ refs.map AttRef.number := by
  unfold hasNumber
  rw [List.any_eq_false]
  constructor
  · intro h hm
    obtain ⟨r, hr, hrn⟩ := List.mem_map.mp hm
    exact h r hr (by simp [hrn])
  · intro h r hr hrn
    exact h (List.mem_map.mpr ⟨r, hr, by simpa using hrn⟩)

/-- The number column of the dedup fold is a sublist of the accumulated and
remaining number columns. -/
theorem dedupRefs_numbers_sublist :
    ∀ (l acc : List AttRef),
      List.Sublist ((dedupRefs acc l).map AttRef.number)
        (acc.map AttRef.number ++ l.map AttRef.number) := by
  intro l
  induction l with
  | nil =>
    intro acc
    simp [dedupRefs]
  | cons r rest ih =>
    intro acc
    simp only [dedupRefs, List.map_cons]
    by_cases h : hasNumber acc r.number = true
    · rw [if_pos h]
      have h1 := ih (bumpDesc r.number r.description acc)
      rw [bumpDesc_map_number] at h1
      refine h1.trans ?_
      exact (List.append_sublist_append_left _).mpr (List.sublist_cons_self _ _)
    · rw [if_neg h]
      have h1 := ih (acc ++ [r])
      rw [List.map_append] at h1
      simpa [List.append_assoc] using h1

/-- The dedup fold keeps the number column duplicate free. -/
theorem dedupRefs_numbers_nodup :
    ∀ (l acc : List AttRef), (acc.map AttRef.number).Nodup →
      ((dedupRefs acc l).map AttRef.number).Nodup := by
  intro l
  induction l with
  | nil =>
    intro acc h
    simpa [dedupRefs] using h
  | cons r rest ih =>
    intro acc h
    simp only [dedupRefs]
    by_cases hh : hasNumber acc r.number = true
    · rw [if_pos hh]
      exact ih _ (by rwa [bumpDesc_map_number])
    · rw [if_neg hh]
      refine ih _ ?_
      rw [List.map_append]
      refine h.append (List.nodup_singleton _) ?_
      intro x hx hx2
      simp only [List.map_cons, List.map_nil, List.mem_singleton] at hx2
      subst hx2
      exact absurd hx ((hasNumber_eq_false_iff acc r.number).mp (Bool.eq_false_iff.mpr hh))

/-- Claim C6: the per-attachment reference lookup matches only stored
references whose captured number equals the decimal index exactly; on a
section citing both attachment 1 and attachment 10, resolving for 1 returns
exactly the entry citing attachment 1 and no entry citing attachment 10, and
conversely for 10. -/
theorem reference_exact_number_matching (index : Nat) (s2 s3 : SectionData) :
    (∀ e ∈ (findAttachmentReferences index s2 s3).section2,
      ∃ r ∈ s2.attachment_refs, r.number = toString index ∧ e = projectRef r)
    ∧ (∀ e ∈ (findAttachmentReferences index s2 s3).section3,
      ∃ r ∈ s3.attachment_refs, r.number = toString index ∧ e = projectRef r)
    ∧ ((findAttachmentReferences 1
        { attachment_refs := extractAttachmentRefs ("核查情况见附件1，处理见附件10。") }
        { attachment_refs := [] }).section2.map (fun e => e.reference) = ["见附件1"])
    ∧ ((findAttachmentReferences 10
        { attachment_refs := extractAttachmentRefs ("核查情况见附件1，处理见附件10。") }
        { attachment_refs := [] }).section2.map (fun e => e.reference) = ["见附件10"]) := by
  refine ⟨?_, ?_, by decide, by decide⟩
  · intro e he
    simp only [findAttachmentReferences, List.mem_map, List.mem_filter] at he
    obtain ⟨r, ⟨hr, hnum⟩, he⟩ := he
    exact ⟨r, hr, by simpa using hnum, he.symm⟩
  · intro e he
    simp only [findAttachmentReferences, List.mem_map, List.mem_filter] at he
    obtain ⟨r, ⟨hr, hnum⟩, he⟩ := he
    exact ⟨r, hr, by simpa using hnum, he.symm⟩

/-- Counterexample to claim C7: a section with two parenthesized citations of
attachment 2 whose descriptions are aa then the longer bbbb produces both
candidate descriptions, yet the returned entry keeps aa: the longest
non-empty description does not win. -/
theorem longest_description_cex :
    ((p2Matches (("（附件2-aa）（附件2-bbbb）").data)).map (fun r => r.description) =
      ["aa", "bbbb"])
    ∧ ((extractAttachmentRefs ("（附件2-aa）（附件2-bbbb）")).map (fun r => r.description) =
      ["aa"]) := by
  exact ⟨by decide, by decide⟩

/-- Claim C7 as amended: the extracted reference list has at most one entry
per attachment number and is sorted ascending by numeric attachment number;
when multiple citation forms target the same number the returned entry keeps
the first collected candidate (bare see-attachment citations are collected
before the parenthesized and free standing forms) with its context and
citation text, and carries the first non-empty description encountered, a
later (even longer) description never replacing a stored non-empty one. -/
theorem attachment_refs_dedup_sorted (section_content : String) :
    List.Sorted refLe (extractAttachmentRefs section_content)
    ∧ ((extractAttachmentRefs section_content).map AttRef.number).Nodup
    ∧ (extractAttachmentRefs
        ("核查情况如下：经查用户于二零二四年一月十日致电客服反映话费异常，客服记录显示处理完毕，详情见附件2。补充材料（附件2-用户话费详单）。") =
        [{ number := "2"
         , reference := "见附件2"
         , context := "核查情况如下：经查用户于二零二四年一月十日致电客服反映话费异常，客服记录显示处理完毕，详情见附件2。补充材料（附件2-用户话费详单）。"
         , description := "用户话费详单" }])
    ∧ ((extractAttachmentRefs ("（附件2-aa）（附件2-bbbb）")).map (fun r => r.description) =
      ["aa"]) := by
  refine ⟨?_, ?_, by decide, by decide⟩
  · unfold extractAttachmentRefs
    by_cases h : (section_content == "") = true
    · rw [if_pos h]
      exact List.sorted_nil
    · rw [if_neg h]
      have hsorted : List.Sorted refLe (sortRefs (extractCandidates section_content.data)) :=
        List.sorted_insertionSort refLe _
      have hkeys : List.Pairwise (fun a b => pyNat a ≤ pyNat b)
          ((sortRefs (extractCandidates section_content.data)).map AttRef.number) := by
        rw [List.pairwise_map]
        exact hsorted
      have hsub := dedupRefs_numbers_sublist (sortRefs (extractCandidates section_content.data)) []
      simp only [List.map_nil, List.nil_append] at hsub
      have hkeys2 := List.Pairwise.sublist hsub hkeys
      rw [List.pairwise_map] at hkeys2
      exact hkeys2
  · unfold extractAttachmentRefs
    by_cases h : (section_content == "") = true
    · rw [if_pos h]
      exact List.nodup_nil
    · rw [if_neg h]
      exact dedupRefs_numbers_nodup _ [] List.nodup_nil

/-! ### complaint_parser.py: section splitting -/

/-- Separator class of the heading patterns: regex backslash-s plus the
enumeration comma and the two full stop forms. -/
def isSepChar (c : Char) : Bool :=
  isPySpace c || c == '、' || c == '.' || c == '．'

/-- Backtracking match of zero or more separator characters followed by the
label literal. -/
def sepStarThenLit (lit : List Char) : List Char → Bool
  | [] => lit.isPrefixOf []
  | c :: rest => lit.isPrefixOf (c :: rest) || (isSepChar c && sepStarThenLit lit rest)

/-- Heading pattern match at one position: one numeral of the class, then
separators, then the label literal. The optional suffix of the attachment
list pattern (名称 or 列表) never affects whether a heading matches nor where
it starts, so it is not modelled; the splitter only uses match starts. -/
def sectionPatMatchAt (numerals : List Char) (lit : List Char) (s : List Char) : Bool :=
  match s with
  | [] => false
  | c :: rest => numerals.contains c && sepStarThenLit lit rest

/-- Python re.search: start position of the leftmost match. -/
def searchPos (p : List Char → Bool) : List Char → Nat → Option Nat
  | [], i => if p [] then some i else none
  | c :: rest, i => if p (c :: rest) then some i else searchPos p rest (i + 1)

/-- The four heading patterns, in dict order (complaint_parser.py lines
18-23). -/
def sectionPatterns : List (String × List Char × List Char) :=
  [("section1", ['一', '1'], ("用户申诉原文").data),
   ("section2", ['二', '2'], ("申诉核查情况").data),
   ("section3", ['三', '3'], ("申诉后处理情况").data),
   ("section4", ['四', '4'], ("附件").data)]

/-- First match position of each present heading, in dict order. -/
def sectionPositions (content : List Char) : List (String × Nat) :=
  sectionPatterns.filterMap (fun kp =>
    (searchPos (sectionPatMatchAt kp.2.1 kp.2.2) content 0).map (fun i => (kp.1, i)))

/-- Order of the sort by heading start position. -/
def posLe (a b : String × Nat) : Prop := a.2 ≤ b.2

instance : DecidableRel posLe := fun _ _ => Nat.decLe _ _

instance : IsTotal (String × Nat) posLe := ⟨fun _ _ => Nat.le_total _ _⟩

instance : IsTrans (String × Nat) posLe := ⟨fun _ _ _ => Nat.le_trans⟩

/-- Python sorted by start position, a stable sort computed by the stable
insertionSort. -/
def sortedSectionPositions (content : List Char) : List (String × Nat) :=
  List.insertionSort posLe (sectionPositions content)

/-- Slice each section from its own heading start to the next heading start,
or to the end for the last one, stripped (complaint_parser.py lines
240-247). -/
def sectionSlices (content : List Char) : List (String × Nat) → List (String × String)
  | [] => []
  | (k, s) :: rest =>
    let e := match rest with
      | [] => content.length
      | (_, s2) :: _ => s2
    (k, String.mk (pyStrip (sliceList content s e))) :: sectionSlices content rest

/-- Embedding of the section splitter (complaint_parser.py lines 225-249),
returning the sections dict as its ordered key and value pairs. -/
def splitSections (content : String) : List (String × String) :=
  sectionSlices content.data (sortedSectionPositions content.data)

/-- The label column of the slices equals that of the positions. -/
theorem sectionSlices_map_fst (c : List Char) :
    ∀ l : List (String × Nat), (sectionSlices c l).map Prod.fst = l.map Prod.fst := by
  intro l
  induction l with
  | nil => rfl
  | cons p rest ih =>
    obtain ⟨k, s⟩ := p
    simp only [sectionSlices, List.map_cons]
    rw [ih]

/-- The slices pair each position with the next start position, or with the
text length for the last one. -/
theorem sectionSlices_zip (c : List Char) :
    ∀ l : List (String × Nat),
      sectionSlices c l =
        (l.zip ((l.map Prod.snd).tail ++ [c.length])).map
          (fun pe => (pe.1.1, String.mk (pyStrip (sliceList c pe.1.2 pe.2)))) := by
  intro l
  induction l with
  | nil => rfl
  | cons p rest ih =>
    obtain ⟨k, s⟩ := p
    cases rest with
    | nil => rfl
    | cons q rest2 =>
      obtain ⟨k2, s2⟩ := q
      simp only [sectionSlices, List.map_cons, List.tail_cons, List.cons_append,
        List.zip_cons_cons] at ih ⊢
      rw [ih]

/-- Python re.search returns the least matching position at or after the
start counter. -/
theorem searchPos_first (p : List Char → Bool) :
    ∀ (s : List Char) (i0 i : Nat), searchPos p s i0 = some i →
      i0 ≤ i ∧ p (s.drop (i - i0)) = true ∧
        ∀ j, i0 ≤ j → j < i → p (s.drop (j - i0)) = false := by
  intro s
  induction s with
  | nil =>
    intro i0 i h
    unfold searchPos at h
    by_cases hp : p [] = true
    · rw [if_pos hp] at h
      cases h
      exact ⟨Nat.le_refl _, by simpa using hp,
        fun j hj1 hj2 => absurd (Nat.lt_of_le_of_lt hj1 hj2) (Nat.lt_irrefl _)⟩
    · rw [if_neg hp] at h
      exact Option.noConfusion h
  | cons c rest ih =>
    intro i0 i h
    unfold searchPos at h
    by_cases hp : p (c :: rest) = true
    · rw [if_pos hp] at h
      cases h
      exact ⟨Nat.le_refl _, by simpa using hp,
        fun j hj1 hj2 => absurd (Nat.lt_of_le_of_lt hj1 hj2) (Nat.lt_irrefl _)⟩
    · rw [if_neg hp] at h
      obtain ⟨h1, h2, h3⟩ := ih (i0 + 1) i h
      refine ⟨Nat.le_trans (Nat.le_succ _) h1, ?_, ?_⟩
      · have hd : i - i0 = (i - (i0 + 1)) + 1 := by omega
        rw [hd]
        simpa using h2
      · intro j hj1 hj2
        by_cases hji : j = i0
        · subst hji
          rw [Nat.sub_self, List.drop_zero]
          exact Bool.eq_false_iff.mpr hp
        · have hj1a : i0 + 1 ≤ j := by omega
          have hj3 := h3 j hj1a hj2
          have hd : j - i0 = (j - (i0 + 1)) + 1 := by omega
          rw [hd]
          simpa using hj3

/-- Membership in the positions list characterizes a found heading. -/
theorem sectionPositions_mem (content : List Char) (k : String) (i : Nat) :
    (k, i) ∈ sectionPositions content ↔
      ∃ kp ∈ sectionPatterns, kp.1 = k ∧
        searchPos (sectionPatMatchAt kp.2.1 kp.2.2) content 0 = some i := by
  unfold sectionPositions
  rw [List.mem_filterMap]
  constructor
  · rintro ⟨kp, hkp, hf⟩
    cases hs : searchPos (sectionPatMatchAt kp.2.1 kp.2.2) content 0 with
    | none =>
      rw [hs] at hf
      simp at hf
    | some i2 =>
      rw [hs] at hf
      simp only [Option.map_some', Option.some.injEq, Prod.mk.injEq] at hf
      obtain ⟨h1, h2⟩ := hf
      subst h2
      exact ⟨kp, hkp, h1, hs⟩
  · rintro ⟨kp, hkp, hk, hs⟩
    refine ⟨kp, hkp, ?_⟩
    rw [hs]
    simp [hk]

/-- The labels of the found positions form a sublist of the four canonical
labels. -/
theorem sectionPositions_fst_sublist (content : List Char) :
    List.Sublist ((sectionPositions content).map Prod.fst)
      (sectionPatterns.map Prod.fst) := by
  unfold sectionPositions
  generalize sectionPatterns = pats
  induction pats with
  | nil => exact List.Sublist.refl _
  | cons kp rest ih =>
    simp only [List.filterMap_cons, List.map_cons]
    cases hs : searchPos (sectionPatMatchAt kp.2.1 kp.2.2) content 0 with
    | none =>
      simp only [Option.map_none']
      exact ih.cons _
    | some i =>
      simp only [Option.map_some']
      rw [List.map_cons]
      exact ih.cons₂ _

/-- Claim C8: segmentation keeps at most one entry per canonical label, each
carrying the first matching heading position; labels whose heading is absent
are omitted; the found sections are ordered by heading match position; each
section text is the stripped span from its own heading start to the next
heading start in document order, or to the text end for the last one; and the
document with only the section two and section four headings yields exactly
those two sections. -/
theorem split_sections_spans (content : String) :
    ((splitSections content).map Prod.fst).Nodup
    ∧ List.Sorted posLe (sortedSectionPositions content.data)
    ∧ splitSections content =
        ((sortedSectionPositions content.data).zip
          (((sortedSectionPositions content.data).map Prod.snd).tail ++
            [content.data.length])).map
          (fun pe => (pe.1.1, String.mk (pyStrip (sliceList content.data pe.1.2 pe.2))))
    ∧ (∀ k i, (k, i) ∈ sectionPositions content.data →
        ∃ kp ∈ sectionPatterns, kp.1 = k ∧
          sectionPatMatchAt kp.2.1 kp.2.2 (content.data.drop i) = true ∧
          ∀ j < i, sectionPatMatchAt kp.2.1 kp.2.2 (content.data.drop j) = false)
    ∧ (∀ k, k ∈ (splitSections content).map Prod.fst ↔
        ∃ kp ∈ sectionPatterns, kp.1 = k ∧
          (searchPos (sectionPatMatchAt kp.2.1 kp.2.2) content.data 0).isSome = true)
    ∧ splitSections ("二、申诉核查情况\n核查完毕\n四、附件\n清单") =
        [("section2", "二、申诉核查情况\n核查完毕"), ("section4", "四、附件\n清单")] := by
  have hperm : List.Perm (sortedSectionPositions content.data)
      (sectionPositions content.data) := List.perm_insertionSort _ _
  refine ⟨?_, ?_, ?_, ?_, ?_, by decide⟩
  · show ((sectionSlices content.data (sortedSectionPositions content.data)).map Prod.fst).Nodup
    rw [sectionSlices_map_fst]
    have hnd : ((sectionPositions content.data).map Prod.fst).Nodup :=
      List.Nodup.sublist (sectionPositions_fst_sublist content.data) (by decide)
    exact ((hperm.map Prod.fst).nodup_iff).mpr hnd
  · exact List.sorted_insertionSort posLe _
  · exact sectionSlices_zip content.data (sortedSectionPositions content.data)
  · intro k i hki
    obtain ⟨kp, hkp, hk, hs⟩ := (sectionPositions_mem content.data k i).mp hki
    obtain ⟨-, h2, h3⟩ := searchPos_first _ content.data 0 i hs
    refine ⟨kp, hkp, hk, by simpa using h2, ?_⟩
    intro j hj
    have hj3 := h3 j (Nat.zero_le _) hj
    simpa using hj3
  · intro k
    show k ∈ (sectionSlices content.data (sortedSectionPositions content.data)).map Prod.fst ↔ _
    rw [sectionSlices_map_fst]
    constructor
    · intro hk
      have hk2 : k ∈ (sectionPositions content.data).map Prod.fst :=
        ((hperm.map Prod.fst).mem_iff).mp hk
      obtain ⟨p, hp, hpk⟩ := List.mem_map.mp hk2
      obtain ⟨ka, ia⟩ := p
      cases hpk
      obtain ⟨kp, hkp, hk1, hs⟩ := (sectionPositions_mem content.data ka ia).mp hp
      refine ⟨kp, hkp, hk1, ?_⟩
      rw [hs]
      rfl
    · rintro ⟨kp, hkp, hk1, hsome⟩
      cases hs : searchPos (sectionPatMatchAt kp.2.1 kp.2.2) content.data 0 with
      | none =>
        rw [hs] at hsome
        simp at hsome
      | some i =>
        have hmem : (k, i) ∈ sectionPositions content.data :=
          (sectionPositions_mem content.data k i).mpr ⟨kp, hkp, hk1, hs⟩
        have hmem2 : k ∈ (sectionPositions content.data).map Prod.fst :=
          List.mem_map.mpr ⟨(k, i), hmem, rfl⟩
        exact ((hperm.map Prod.fst).mem_iff).mpr hmem2

/-! ### attachment_name_checker.py: filename parsing and reconciliation -/

/-- Parsed filename dict of the name checker. -/
structure ParsedFilename where
  number : String
  name : String
  filename : String
  file_ext : String
  parsed : Bool
deriving Repr, DecidableEq

/-- Python filename.rsplit at the last dot, for a list containing a dot:
stem and extension. -/
def rsplitDot (l : List Char) : List Char × List Char :=
  let rev := l.reverse
  let extRev := rev.takeWhile (fun c => !(c == '.'))
  ((rev.drop (extRev.length + 1)).reverse, extRev.reverse)

/-- Embedding of the filename parser (attachment_name_checker.py lines
15-71): strip the extension at the last dot, then match one or more digits,
a hyphen and the rest of the stem; the captured label is stripped of hyphens
and then of whitespace. Filenames contain no newline, so the dollar anchor of
the source pattern is the end of the stem. -/
def extractAttachmentInfoFromFilename (filename : String) : ParsedFilename :=
  let fl := filename.data
  let stemExt := if fl.contains '.' then rsplitDot fl else (fl, [])
  let stem := stemExt.1
  let ext := stemExt.2
  let digits := stem.takeWhile Char.isDigit
  if !digits.isEmpty && ((stem.drop digits.length).headD ' ' == '-') then
    let name_part := stem.drop (digits.length + 1)
    let cleaned := pyStrip (stripWhile (fun c => c == '-') name_part)
    { number := String.mk digits, name := String.mk cleaned,
      filename := filename, file_ext := String.mk ext, parsed := true }
  else
    { number := "", name := filename, filename := filename,
      file_ext := String.mk ext, parsed := false }

/-- One declared attachment of the section four list. -/
structure DocAtt where
  number : String
  name : String
deriving Repr, DecidableEq

/-- Issue dict of the name checker; keys that are absent on some issue kinds
become Option fields. -/
structure NameIssue where
  severity : String
  type : String
  attachment_number : Option String
  doc_name : Option String
  file_name : Option String
  description : String
  suggestion : String
deriving Repr, DecidableEq

/-- Row of the matched attachment table. -/
structure MatchedAtt where
  number : String
  doc_name : String
  file_name : Option String
  extracted_name : Option String
  status : String
deriving Repr, DecidableEq

/-- Result dict of the reconciliation. -/
structure NameCheckResult where
  matched_attachments : List MatchedAtt
  unmatched_files : List String
  issues : List NameIssue
  total_doc_attachments : Nat
  total_uploaded_files : Nat
  matched_count : Nat
deriving Repr, DecidableEq

/-- The name mismatch condition: both labels nonempty and neither contained
in the other (attachment_name_checker.py lines 117-119). -/
def nameMismatch (doc_name up_name : String) : Bool :=
  doc_name != "" && up_name != "" &&
    !(pyIn doc_name.data up_name.data) && !(pyIn up_name.data doc_name.data)

/-- The name mismatch warning issue for a declared attachment and its
matched upload. -/
def mismatchIssueFor (att : DocAtt) (u : ParsedFilename) : NameIssue :=
  { severity := "warning", type := "name_mismatch",
    attachment_number := some att.number, doc_name := some att.name,
    file_name := some u.name,
    description := "附件" ++ att.number ++ "名称不一致：文档中为\"" ++ att.name ++
      "\"，文件名为\"" ++ u.name ++ "\"",
    suggestion := "检查附件名称是否正确" }

/-- The critical issue for a declared attachment with no matching upload. -/
def notFoundIssueFor (att : DocAtt) : NameIssue :=
  { severity := "critical", type := "attachment_not_found",
    attachment_number := some att.number, doc_name := some att.name,
    file_name := none,
    description := "附件" ++ att.number ++ "（" ++ att.name ++ "）未找到对应的上传文件",
    suggestion := "请上传编号为" ++ att.number ++ "的附件" }

/-- Issues contributed by one declared attachment: a name mismatch warning
when the first ordinal equal upload's label clashes, a critical issue when no
upload matches. -/
def declIssuesFor (ups : List ParsedFilename) (att : DocAtt) : List NameIssue :=
  match ups.find? (fun u => u.number == att.number) with
  | some u => if nameMismatch att.name u.name then [mismatchIssueFor att u] else []
  | none => [notFoundIssueFor att]

/-- Equation of the declared pass when an upload matches. -/
theorem declIssuesFor_eq_some (ups : List ParsedFilename) (att : DocAtt)
    (u : ParsedFilename) (hf : ups.find? (fun v => v.number == att.number) = some u) :
    declIssuesFor ups att =
      if nameMismatch att.name u.name = true then [mismatchIssueFor att u] else [] := by
  unfold declIssuesFor
  rw [hf]

/-- Equation of the declared pass when no upload matches. -/
theorem declIssuesFor_eq_none (ups : List ParsedFilename) (att : DocAtt)
    (hf : ups.find? (fun v => v.number == att.number) = none) :
    declIssuesFor ups att = [notFoundIssueFor att] := by
  unfold declIssuesFor
  rw [hf]

/-- Row of the matched table for one declared attachment. -/
def matchedEntryFor (ups : List ParsedFilename) (att : DocAtt) : MatchedAtt :=
  match ups.find? (fun u => u.number == att.number) with
  | some u =>
    { number := att.number, doc_name := att.name, file_name := some u.filename,
      extracted_name := some u.name, status := "✅ 已匹配" }
  | none =>
    { number := att.number, doc_name := att.name, file_name := none,
      extracted_name := none, status := "❌ 未找到" }

/-- The unlisted file warning for one upload, when parsed and matching no
declared attachment (attachment_name_checker.py lines 158-169). -/
def unlistedIssueFor (decl : List DocAtt) (u : ParsedFilename) : Option NameIssue :=
  if u.parsed && !(decl.any (fun att => att.number == u.number)) then
    some { severity := "warning", type := "unlisted_file",
           attachment_number := none, doc_name := none,
           file_name := some u.filename,
           description := "文件\"" ++ u.filename ++ "\"（编号" ++ u.number ++
             "）未在文档附件列表中",
           suggestion := "将该附件添加到文档的附件列表中" }
  else none

/-- Embedding of the reconciliation (attachment_name_checker.py lines
73-178). The source loops append to one issue list in order: first the per
declared attachment issues, then the unlisted upload issues. -/
def checkAttachmentNames (section4_attachments : List DocAtt)
    (uploaded_files : List String) : NameCheckResult :=
  let ups := uploaded_files.map extractAttachmentInfoFromFilename
  let matched := section4_attachments.map (matchedEntryFor ups)
  { matched_attachments := matched
  , unmatched_files :=
      (ups.filter (fun u =>
        u.parsed && !(section4_attachments.any (fun att => att.number == u.number)))).map
        (fun u => u.filename)
  , issues := (section4_attachments.flatMap (declIssuesFor ups)) ++
      (ups.filterMap (unlistedIssueFor section4_attachments))
  , total_doc_attachments := section4_attachments.length
  , total_uploaded_files := uploaded_files.length
  , matched_count := (matched.filter (fun a => a.status == "✅ 已匹配")).length }

/-- Bool any agrees with the optional find. -/
theorem any_eq_isSome_find? {α : Type} (p : α → Bool) (l : List α) :
    l.any p = (l.find? p).isSome := by
  induction l with
  | nil => rfl
  | cons a rest ih =>
    by_cases h : p a = true
    · rw [List.find?_cons_of_pos _ h]
      simp [h]
    · have hf : p a = false := Bool.eq_false_iff.mpr h
      rw [List.find?_cons_of_neg _ (by simp [hf])]
      simp [hf, ih]

/-- Every issue contributed by a declared attachment is the critical not
found issue or the warning name mismatch issue. -/
theorem declIssuesFor_mem (ups : List ParsedFilename) (att : DocAtt) :
    ∀ i ∈ declIssuesFor ups att,
      (i.type = "attachment_not_found" ∧ i.severity = "critical") ∨
      (i.type = "name_mismatch" ∧ i.severity = "warning") := by
  intro i hi
  cases hf : ups.find? (fun u => u.number == att.number) with
  | some u =>
    rw [declIssuesFor_eq_some ups att u hf] at hi
    by_cases hm : nameMismatch att.name u.name = true
    · rw [if_pos hm, List.mem_singleton] at hi
      subst hi
      exact Or.inr ⟨rfl, rfl⟩
    · rw [if_neg hm] at hi
      simp at hi
  | none =>
    rw [declIssuesFor_eq_none ups att hf, List.mem_singleton] at hi
    subst hi
    exact Or.inl ⟨rfl, rfl⟩

/-- Count of not found issues contributed by one declared attachment. -/
theorem declIssuesFor_notfound_length (ups : List ParsedFilename) (att : DocAtt) :
    ((declIssuesFor ups att).filter (fun i => i.type == "attachment_not_found")).length =
      if (ups.find? (fun u => u.number == att.number)).isSome = true then 0 else 1 := by
  cases hf : ups.find? (fun u => u.number == att.number) with
  | some u =>
    rw [declIssuesFor_eq_some ups att u hf]
    by_cases hm : nameMismatch att.name u.name = true
    · rw [if_pos hm]
      rfl
    · rw [if_neg hm]
      rfl
  | none =>
    rw [declIssuesFor_eq_none ups att hf]
    rfl

/-- Count of name mismatch issues contributed by one declared attachment. -/
theorem declIssuesFor_mismatch_length (ups : List ParsedFilename) (att : DocAtt) :
    ((declIssuesFor ups att).filter (fun i => i.type == "name_mismatch")).length =
      if (ups.find? (fun u => u.number == att.number)).any
          (fun u => nameMismatch att.name u.name) = true then 1 else 0 := by
  cases hf : ups.find? (fun u => u.number == att.number) with
  | some u =>
    rw [declIssuesFor_eq_some ups att u hf]
    by_cases hm : nameMismatch att.name u.name = true
    · rw [if_pos hm, if_pos (show Option.any (fun v => nameMismatch att.name v.name) (some u) = true from hm)]
      rfl
    · rw [if_neg hm, if_neg (show ¬ Option.any (fun v => nameMismatch att.name v.name) (some u) = true from hm)]
      rfl
  | none =>
    rw [declIssuesFor_eq_none ups att hf]
    rfl

/-- Shape of the unlisted upload check result. -/
theorem unlistedIssueFor_eq (decl : List DocAtt) (u : ParsedFilename) :
    (¬ (u.parsed && !(decl.any (fun att => att.number == u.number))) = true ∧
      unlistedIssueFor decl u = none) ∨
    ((u.parsed && !(decl.any (fun att => att.number == u.number))) = true ∧
      ∃ i, unlistedIssueFor decl u = some i ∧
        i.type = "unlisted_file" ∧ i.severity = "warning") := by
  by_cases hc : (u.parsed && !(decl.any (fun att => att.number == u.number))) = true
  · right
    refine ⟨hc, ?_⟩
    unfold unlistedIssueFor
    rw [if_pos hc]
    exact ⟨_, rfl, rfl, rfl⟩
  · left
    refine ⟨hc, ?_⟩
    unfold unlistedIssueFor
    rw [if_neg hc]

/-- Every issue contributed by the uploads pass is the unlisted file
warning. -/
theorem filterMap_unlisted_types (decl : List DocAtt) (ups : List ParsedFilename) :
    ∀ i ∈ ups.filterMap (unlistedIssueFor decl),
      i.type = "unlisted_file" ∧ i.severity = "warning" := by
  intro i hi
  rw [List.mem_filterMap] at hi
  obtain ⟨u, -, hf⟩ := hi
  rcases unlistedIssueFor_eq decl u with ⟨-, hnone⟩ | ⟨-, j, hsome, hty, hsev⟩
  · rw [hnone] at hf
    exact Option.noConfusion hf
  · rw [hsome] at hf
    injection hf with hf
    subst hf
    exact ⟨hty, hsev⟩

/-- The declared attachment pass contributes no unlisted file issue. -/
theorem flatMap_decl_no_unlisted (ups : List ParsedFilename) (decl : List DocAtt) :
    (decl.flatMap (declIssuesFor ups)).filter (fun i => i.type == "unlisted_file") = [] := by
  rw [List.filter_eq_nil_iff]
  intro i hi
  rw [List.mem_flatMap] at hi
  obtain ⟨att, -, hmem⟩ := hi
  rcases declIssuesFor_mem ups att i hmem with ⟨hty, -⟩ | ⟨hty, -⟩
  · simp [hty]
  · simp [hty]

/-- The uploads pass contributes no issue of another type. -/
theorem filterMap_unlisted_no (decl : List DocAtt) (ups : List ParsedFilename)
    (t : String) (ht : t ≠ "unlisted_file") :
    (ups.filterMap (unlistedIssueFor decl)).filter (fun i => i.type == t) = [] := by
  rw [List.filter_eq_nil_iff]
  intro i hi
  obtain ⟨hty, -⟩ := filterMap_unlisted_types decl ups i hi
  rw [hty]
  simp [Ne.symm ht]

/-- Count of attachment not found issues over the declared pass. -/
theorem notfound_count (ups : List ParsedFilename) :
    ∀ decl : List DocAtt,
      ((decl.flatMap (declIssuesFor ups)).filter
        (fun i => i.type == "attachment_not_found")).length =
      (decl.filter (fun att => !(ups.any (fun u => u.number == att.number)))).length := by
  intro decl
  induction decl with
  | nil => rfl
  | cons att rest ih =>
    have hfind := (any_eq_isSome_find? (fun u => u.number == att.number) ups).symm
    rw [List.flatMap_cons, List.filter_append, List.length_append, ih,
      declIssuesFor_notfound_length, hfind, List.filter_cons]
    by_cases ha : ups.any (fun u => u.number == att.number) = true
    · rw [if_pos ha, if_neg (by simp [ha])]
      simp
    · rw [if_neg ha, if_pos (by simp [Bool.eq_false_iff.mpr ha])]
      simp [Nat.add_comm]

/-- Count of name mismatch issues over the declared pass. -/
theorem mismatch_count (ups : List ParsedFilename) :
    ∀ decl : List DocAtt,
      ((decl.flatMap (declIssuesFor ups)).filter
        (fun i => i.type == "name_mismatch")).length =
      (decl.filter (fun att =>
        (ups.find? (fun u => u.number == att.number)).any
          (fun u => nameMismatch att.name u.name))).length := by
  intro decl
  induction decl with
  | nil => rfl
  | cons att rest ih =>
    rw [List.flatMap_cons, List.filter_append, List.length_append, ih,
      declIssuesFor_mismatch_length, List.filter_cons]
    by_cases ha : (ups.find? (fun u => u.number == att.number)).any
        (fun u => nameMismatch att.name u.name) = true
    · rw [if_pos ha, if_pos ha]
      simp [Nat.add_comm]
    · rw [if_neg ha, if_neg ha]
      simp

/-- Count of unlisted file issues over the uploads pass. -/
theorem unlisted_count (decl : List DocAtt) :
    ∀ ups : List ParsedFilename,
      ((ups.filterMap (unlistedIssueFor decl)).filter
        (fun i => i.type == "unlisted_file")).length =
      (ups.filter (fun u =>
        u.parsed && !(decl.any (fun att => att.number == u.number)))).length := by
  intro ups
  induction ups with
  | nil => rfl
  | cons u rest ih =>
    rw [List.filterMap_cons, List.filter_cons]
    rcases unlistedIssueFor_eq decl u with ⟨hc, hnone⟩ | ⟨hc, i, hsome, hty, -⟩
    · rw [hnone, if_neg hc]
      exact ih
    · rw [hsome, if_pos hc, List.filter_cons, if_pos (by simp [hty])]
      simp [ih]

/-- The matched table row of one declared attachment: the number column is
the declared ordinal and matched status holds exactly when some upload
carries a string equal ordinal. -/
theorem matchedEntryFor_spec (ups : List ParsedFilename) (att : DocAtt) :
    (matchedEntryFor ups att).number = att.number ∧
    ((matchedEntryFor ups att).status == "✅ 已匹配") =
      ups.any (fun u => u.number == att.number) := by
  rw [any_eq_isSome_find?]
  unfold matchedEntryFor
  cases hf : ups.find? (fun u => u.number == att.number) with
  | some u => exact ⟨rfl, rfl⟩
  | none => exact ⟨rfl, rfl⟩

/-- Python substring containment is list infix containment. -/
theorem pyIn_infix_iff (needle : List Char) :
    ∀ hay : List Char, pyIn needle hay = true ↔ List.IsInfix needle hay := by
  intro hay
  induction hay with
  | nil =>
    show needle.isPrefixOf [] = true ↔ _
    rw [List.isPrefixOf_iff_prefix]
    constructor
    · intro h
      exact h.isInfix
    · intro h
      have := List.eq_nil_of_infix_nil h
      subst this
      exact List.nil_prefix
  | cons c t ih =>
    show (needle.isPrefixOf (c :: t) || pyIn needle t) = true ↔ _
    rw [Bool.or_eq_true, List.isPrefixOf_iff_prefix, ih, List.infix_cons_iff]

/-- Claim C9: reconciliation matches declared attachments to uploads exactly
by string equal ordinals (not numeric, so 01 does not match 1); every
declared attachment without an ordinal equal upload yields one critical
attachment not found issue; every parsed upload matching no declared
attachment yields one warning unlisted file issue; and a matched pair yields
one warning name mismatch issue exactly when both labels are nonempty and
neither is a substring of the other. -/
theorem attachment_name_reconciliation (decl : List DocAtt) (files : List String) :
    ((checkAttachmentNames decl files).matched_attachments.map
        (fun m => (m.number, m.status == "✅ 已匹配"))) =
      (decl.map (fun att => (att.number,
        (files.map extractAttachmentInfoFromFilename).any
          (fun u => u.number == att.number))))
    ∧ ((checkAttachmentNames decl files).issues.filter
        (fun i => i.type == "attachment_not_found")).length =
      (decl.filter (fun att =>
        !(files.map extractAttachmentInfoFromFilename).any
          (fun u => u.number == att.number))).length
    ∧ ((checkAttachmentNames decl files).issues.filter
        (fun i => i.type == "unlisted_file")).length =
      ((files.map extractAttachmentInfoFromFilename).filter (fun u =>
        u.parsed && !(decl.any (fun att => att.number == u.number)))).length
    ∧ ((checkAttachmentNames decl files).issues.filter
        (fun i => i.type == "name_mismatch")).length =
      (decl.filter (fun att =>
        ((files.map extractAttachmentInfoFromFilename).find?
          (fun u => u.number == att.number)).any
          (fun u => nameMismatch att.name u.name))).length
    ∧ (∀ dn un : String, nameMismatch dn un = true ↔
        dn ≠ "" ∧ un ≠ "" ∧ ¬ List.IsInfix dn.data un.data ∧
          ¬ List.IsInfix un.data dn.data)
    ∧ (∀ i ∈ (checkAttachmentNames decl files).issues,
        (i.type = "attachment_not_found" → i.severity = "critical") ∧
        (i.type = "name_mismatch" → i.severity = "warning") ∧
        (i.type = "unlisted_file" → i.severity = "warning"))
    ∧ ((checkAttachmentNames decl files).matched_attachments.map
        (fun m => m.number)) = decl.map DocAtt.number
    ∧ ((checkAttachmentNames [{ number := "01", name := "话费单" }]
        ["1-话费单.jpg"]).issues.map (fun i => (i.type, i.severity)) =
        [("attachment_not_found", "critical"), ("unlisted_file", "warning")]) := by
  refine ⟨?_, ?_, ?_, ?_, ?_, ?_, ?_, by decide⟩
  · show ((decl.map (matchedEntryFor (files.map extractAttachmentInfoFromFilename))).map
      (fun m => (m.number, m.status == "✅ 已匹配"))) = _
    rw [List.map_map]
    refine List.map_congr_left (fun att ha => ?_)
    obtain ⟨h1, h2⟩ := matchedEntryFor_spec (files.map extractAttachmentInfoFromFilename) att
    simp only [Function.comp_apply, h1, h2]
  · show (((decl.flatMap (declIssuesFor (files.map extractAttachmentInfoFromFilename))) ++
      ((files.map extractAttachmentInfoFromFilename).filterMap
        (unlistedIssueFor decl))).filter (fun i => i.type == "attachment_not_found")).length = _
    rw [List.filter_append, filterMap_unlisted_no decl _ _ (by decide),
      List.append_nil, notfound_count]
  · show (((decl.flatMap (declIssuesFor (files.map extractAttachmentInfoFromFilename))) ++
      ((files.map extractAttachmentInfoFromFilename).filterMap
        (unlistedIssueFor decl))).filter (fun i => i.type == "unlisted_file")).length = _
    rw [List.filter_append, flatMap_decl_no_unlisted, List.nil_append, unlisted_count]
  · show (((decl.flatMap (declIssuesFor (files.map extractAttachmentInfoFromFilename))) ++
      ((files.map extractAttachmentInfoFromFilename).filterMap
        (unlistedIssueFor decl))).filter (fun i => i.type == "name_mismatch")).length = _
    rw [List.filter_append, filterMap_unlisted_no decl _ _ (by decide),
      List.append_nil, mismatch_count]
  · intro dn un
    unfold nameMismatch
    constructor
    · intro h
      simp only [Bool.and_eq_true, bne_iff_ne, Bool.not_eq_true'] at h
      obtain ⟨⟨⟨h1, h2⟩, h3⟩, h4⟩ := h
      refine ⟨h1, h2, ?_, ?_⟩
      · intro hin
        rw [← pyIn_infix_iff] at hin
        rw [hin] at h3
        exact Bool.noConfusion h3
      · intro hin
        rw [← pyIn_infix_iff] at hin
        rw [hin] at h4
        exact Bool.noConfusion h4
    · rintro ⟨h1, h2, h3, h4⟩
      simp only [Bool.and_eq_true, bne_iff_ne, Bool.not_eq_true']
      refine ⟨⟨⟨h1, h2⟩, ?_⟩, ?_⟩
      · exact Bool.eq_false_iff.mpr (fun hh => h3 ((pyIn_infix_iff _ _).mp hh))
      · exact Bool.eq_false_iff.mpr (fun hh => h4 ((pyIn_infix_iff _ _).mp hh))
  · intro i hi
    have hi2 : i ∈ (decl.flatMap
          (declIssuesFor (files.map extractAttachmentInfoFromFilename))) ++
        ((files.map extractAttachmentInfoFromFilename).filterMap
          (unlistedIssueFor decl)) := hi
    rw [List.mem_append] at hi2
    rcases hi2 with hi | hi
    · rw [List.mem_flatMap] at hi
      obtain ⟨att, -, hmem⟩ := hi
      rcases declIssuesFor_mem _ att i hmem with ⟨hty, hsev⟩ | ⟨hty, hsev⟩
      · refine ⟨fun _ => hsev, fun h2 => ?_, fun h2 => ?_⟩
        · rw [hty] at h2
          exact absurd h2 (by decide)
        · rw [hty] at h2
          exact absurd h2 (by decide)
      · refine ⟨fun h2 => ?_, fun _ => hsev, fun h2 => ?_⟩
        · rw [hty] at h2
          exact absurd h2 (by decide)
        · rw [hty] at h2
          exact absurd h2 (by decide)
    · obtain ⟨hty, hsev⟩ := filterMap_unlisted_types decl _ i hi
      refine ⟨fun h2 => ?_, fun h2 => ?_, fun _ => hsev⟩
      · rw [hty] at h2
        exact absurd h2 (by decide)
      · rw [hty] at h2
        exact absurd h2 (by decide)
  · show ((decl.map (matchedEntryFor (files.map extractAttachmentInfoFromFilename))).map
      (fun m => m.number)) = _
    rw [List.map_map]
    refine List.map_congr_left (fun att ha => ?_)
    exact (matchedEntryFor_spec (files.map extractAttachmentInfoFromFilename) att).1

end Workflow
